import Mathlib

/-!
Verification of the Chicago public schools data-preprocessing program.

The source (chicago_public_schools_data_preprocessing.py) defines three
classes: `Coordinate` (latitude/longitude in radians, haversine distance),
`School` (a record parsed from one CSV row, held as a dict of strings),
and `CPS` (a catalog of schools loaded from a CSV file, with three
linear-scan query methods).  Each Lean definition below is a shallow
embedding of the correspondingly named Python function, with Python
floats modelled by exact real numbers and the CSV file system modelled
as an explicit map from file names to row lists.
-/

open Real

/-- Embeds the module-level constant `EARTH_RADIUS = 3961` (miles). -/
noncomputable def EARTH_RADIUS : ℝ := 3961

/-- Embeds class `Coordinate`: a latitude/longitude pair in radians. -/
structure Coordinate where
  latitude : ℝ
  longitude : ℝ
deriving Inhabited

/-- Embeds `Coordinate.degree_to_radian`: `degree * math.pi / 180`. -/
noncomputable def Coordinate.degree_to_radian (degree : ℝ) : ℝ :=
  degree * Real.pi / 180

/-- Embeds the alternate constructor `Coordinate.fromdegrees`. -/
noncomputable def Coordinate.fromdegrees (latitude longitude : ℝ) : Coordinate :=
  ⟨Coordinate.degree_to_radian latitude, Coordinate.degree_to_radian longitude⟩

/-- Embeds `Coordinate.distance`: the haversine distance in miles from
`self` to `coord`, exactly as written in the source:
`2 * EARTH_RADIUS * asin(sqrt(sin(dlat/2)^2 + cos(lat1)*cos(lat2)*sin(dlon/2)^2))`. -/
noncomputable def Coordinate.distance (self coord : Coordinate) : ℝ :=
  2 * EARTH_RADIUS * Real.arcsin (Real.sqrt
    (Real.sin ((self.latitude - coord.latitude) / 2) ^ 2 +
      Real.cos self.latitude * Real.cos coord.latitude *
        Real.sin ((self.longitude - coord.longitude) / 2) ^ 2))

/-- Embeds `Coordinate.as_degrees`: returns the `(latitude, longitude)`
pair converted back to degrees via `x * 180 / math.pi`. -/
noncomputable def Coordinate.as_degrees (self : Coordinate) : ℝ × ℝ :=
  (self.latitude * 180 / Real.pi, self.longitude * 180 / Real.pi)

/-- Embeds class `School`.  The string fields are kept as parsed by
`School.__init__`; `grades` is the list produced by splitting the raw
grades field on `", "`; `location` is a `Coordinate` built with
`fromdegrees`. -/
structure School where
  id : ℤ
  name : String
  network : String
  address : String
  zip : String
  phone : String
  grades : List String
  location : Coordinate

/-- Embeds `School.distance`, which inlines the same haversine formula
as `Coordinate.distance` with `self.location` as the first point. -/
noncomputable def School.distance (self : School) (coord : Coordinate) : ℝ :=
  2 * EARTH_RADIUS * Real.arcsin (Real.sqrt
    (Real.sin ((self.location.latitude - coord.latitude) / 2) ^ 2 +
      Real.cos self.location.latitude * Real.cos coord.latitude *
        Real.sin ((self.location.longitude - coord.longitude) / 2) ^ 2))

/-- The haversine expression exactly as the specification document words
it: `2 * R * asin(sqrt(sin^2(dlat/2) + cos(lat1)*cos(lat2)*sin^2(dlon/2)))`
with `dlat = lat_a - lat_b`, `dlon = lon_a - lon_b` and `R = 3961`.
Used only to compare the source formula against the spec's formula. -/
noncomputable def haversineSpecDistance (a b : Coordinate) : ℝ :=
  2 * 3961 * Real.arcsin (Real.sqrt
    (Real.sin ((a.latitude - b.latitude) / 2) ^ 2 +
      Real.cos a.latitude * Real.cos b.latitude *
        Real.sin ((a.longitude - b.longitude) / 2) ^ 2))

/-- C2: `Coordinate.distance` computes exactly the haversine expression
stated in the spec, with `R` the fixed constant `3961`. -/
theorem distance_eq_haversine_spec :
    (∀ a b : Coordinate, Coordinate.distance a b = haversineSpecDistance a b) ∧
      EARTH_RADIUS = 3961 :=
  ⟨fun _ _ => rfl, rfl⟩

/-- C9: the record-level distance `School.distance s c` coincides with
the point-level distance `Coordinate.distance s.location c`; the source
inlines the formula but the two computations are equal. -/
theorem school_distance_eq_location_distance
    (s : School) (c : Coordinate) :
    School.distance s c = Coordinate.distance s.location c :=
  rfl

/-- Embeds class `CPS`: the catalog holds the list of schools, in the
order the rows were appended during the load. -/
structure CPS where
  schools : List School

/-- Embeds the loop body of `CPS.nearby_schools`: each school is skipped
(`continue`) when `Coordinate.distance(coord, school.location) > radius`
and appended otherwise, preserving the iteration order. -/
noncomputable def nearbyLoop (coord : Coordinate) (radius : ℝ) :
    List School → List School
  | [] => []
  | school :: rest =>
    if Coordinate.distance coord school.location > radius then
      nearbyLoop coord radius rest
    else
      school :: nearbyLoop coord radius rest

/-- Embeds `CPS.nearby_schools`. -/
noncomputable def CPS.nearby_schools (self : CPS) (coord : Coordinate)
    (radius : ℝ) : List School :=
  nearbyLoop coord radius self.schools

/-- Embeds the loop body of `CPS.get_schools_by_grade`: a school is kept
exactly when `set(input_grades).issubset(set(school.grades))`, i.e. when
every requested grade occurs among the school's grades. -/
def gradeLoop (input_grades : List String) : List School → List School
  | [] => []
  | school :: rest =>
    if ∀ g ∈ input_grades, g ∈ school.grades then
      school :: gradeLoop input_grades rest
    else
      gradeLoop input_grades rest

/-- Embeds `CPS.get_schools_by_grade` (the `*grades` varargs are the
input list; the method first copies them into `input_grades`). -/
def CPS.get_schools_by_grade (self : CPS) (grades : List String) :
    List School :=
  gradeLoop grades self.schools

/-- Embeds the loop body of `CPS.get_schools_by_network`: a school is
skipped when `school.network != network` and kept otherwise. -/
def networkLoop (network : String) : List School → List School
  | [] => []
  | school :: rest =>
    if school.network = network then
      school :: networkLoop network rest
    else
      networkLoop network rest

/-- Embeds `CPS.get_schools_by_network`. -/
def CPS.get_schools_by_network (self : CPS) (network : String) :
    List School :=
  networkLoop network self.schools

open Classical in
/-- The nearby-schools loop is a filter by `distance ≤ radius`. -/
theorem nearbyLoop_eq_filter (coord : Coordinate) (radius : ℝ)
    (l : List School) :
    nearbyLoop coord radius l =
      l.filter fun s => decide (Coordinate.distance coord s.location ≤ radius) := by
  induction l with
  | nil => rfl
  | cons school rest ih =>
    by_cases h : Coordinate.distance coord school.location > radius
    · simp [nearbyLoop, h, List.filter_cons, not_le.mpr h, ih]
    · simp [nearbyLoop, h, List.filter_cons, not_lt.mp h, ih]

/-- The grade loop is a filter by grade containment. -/
theorem gradeLoop_eq_filter (input_grades : List String) (l : List School) :
    gradeLoop input_grades l =
      l.filter fun s => decide (∀ g ∈ input_grades, g ∈ s.grades) := by
  induction l with
  | nil => rfl
  | cons school rest ih =>
    by_cases h : ∀ g ∈ input_grades, g ∈ school.grades
    · simp [gradeLoop, h, List.filter_cons, ih]
    · simp [gradeLoop, h, List.filter_cons, ih]

/-- The network loop is a filter by network equality. -/
theorem networkLoop_eq_filter (network : String) (l : List School) :
    networkLoop network l = l.filter fun s => s.network = network := by
  induction l with
  | nil => rfl
  | cons school rest ih =>
    by_cases h : school.network = network
    · simp [networkLoop, h, List.filter_cons, ih]
    · simp [networkLoop, h, List.filter_cons, ih]

open Classical in
/-- C1: `nearby_schools` returns exactly the schools at distance at most
`radius` from the query point (membership characterisation), as a
sublist of the catalog (original order preserved), and returns `[]`
when every school is strictly farther than `radius`. -/
theorem nearby_schools_spec (cps : CPS) (coord : Coordinate) (radius : ℝ) :
    (∀ s : School, s ∈ cps.nearby_schools coord radius ↔
        s ∈ cps.schools ∧ Coordinate.distance coord s.location ≤ radius) ∧
      (cps.nearby_schools coord radius).Sublist cps.schools ∧
      ((∀ s ∈ cps.schools, radius < Coordinate.distance coord s.location) →
        cps.nearby_schools coord radius = []) := by
  refine ⟨fun s => ?_, ?_, fun hall => ?_⟩
  · rw [CPS.nearby_schools, nearbyLoop_eq_filter, List.mem_filter]
    simp
  · rw [CPS.nearby_schools, nearbyLoop_eq_filter]
    exact List.filter_sublist cps.schools
  · rw [CPS.nearby_schools, nearbyLoop_eq_filter, List.filter_eq_nil_iff]
    intro s hs
    simpa using not_le.mpr (hall s hs)

/-- A fixed point used to instantiate the query theorems. -/
noncomputable def originCoord : Coordinate := ⟨0, 0⟩

/-- A fixed school record used to instantiate the query theorems. -/
noncomputable def testSchool : School :=
  ⟨609096, "A", "N1", "addr", "60601", "555", ["K", "1"], originCoord⟩

/-- A one-school catalog used to instantiate the query theorems. -/
noncomputable def testCPS : CPS := ⟨[testSchool]⟩

open Classical in
/-- Instantiation of `nearby_schools_spec` on a concrete catalog. -/
theorem nearby_schools_spec_witness :
    (∀ s : School, s ∈ testCPS.nearby_schools originCoord 1 ↔
        s ∈ testCPS.schools ∧ Coordinate.distance originCoord s.location ≤ 1) ∧
      (testCPS.nearby_schools originCoord 1).Sublist testCPS.schools ∧
      ((∀ s ∈ testCPS.schools, 1 < Coordinate.distance originCoord s.location) →
        testCPS.nearby_schools originCoord 1 = []) :=
  nearby_schools_spec testCPS originCoord 1

/-- C7: radius monotonicity — every school returned by `nearby_schools`
at radius `r1` is also returned at any radius `r2 ≥ r1`. -/
theorem nearby_schools_radius_mono (cps : CPS) (coord : Coordinate)
    (r1 r2 : ℝ) (hr : r1 ≤ r2) (s : School)
    (hs : s ∈ cps.nearby_schools coord r1) :
    s ∈ cps.nearby_schools coord r2 := by
  classical
  rw [CPS.nearby_schools, nearbyLoop_eq_filter, List.mem_filter] at hs ⊢
  exact ⟨hs.1, by simpa using le_trans (by simpa using hs.2) hr⟩

/-- The distance from the origin point to itself is zero. -/
theorem distance_origin_self : Coordinate.distance originCoord originCoord = 0 := by
  simp [Coordinate.distance, originCoord, Real.sqrt_zero, Real.arcsin_zero]

/-- The test school is within every nonnegative radius of the origin. -/
theorem testSchool_mem_nearby (r : ℝ) (hr : 0 ≤ r) :
    testSchool ∈ testCPS.nearby_schools originCoord r := by
  have hd : Coordinate.distance originCoord testSchool.location = 0 := by
    simpa [testSchool] using distance_origin_self
  simp [CPS.nearby_schools, nearbyLoop, testCPS, hd, not_lt.mpr hr]

/-- Instantiation of `nearby_schools_radius_mono` at radii 0 and 1. -/
theorem nearby_schools_radius_mono_witness :
    (0 : ℝ) ≤ 1 ∧ testSchool ∈ testCPS.nearby_schools originCoord 1 :=
  ⟨by norm_num,
    nearby_schools_radius_mono testCPS originCoord 0 1 (by norm_num) testSchool
      (testSchool_mem_nearby 0 le_rfl)⟩

/-- C3: `get_schools_by_grade` returns exactly the schools offering all
requested grades (membership characterisation), as a sublist of the
catalog (original order), the result depends only on the set of input
grades (duplicates collapse), and the empty input returns the full
catalog in original order. -/
theorem get_schools_by_grade_spec (cps : CPS) (G : List String) :
    (∀ s : School, s ∈ cps.get_schools_by_grade G ↔
        s ∈ cps.schools ∧ ∀ g ∈ G, g ∈ s.grades) ∧
      (cps.get_schools_by_grade G).Sublist cps.schools ∧
      (∀ G' : List String, (∀ g, g ∈ G ↔ g ∈ G') →
        cps.get_schools_by_grade G = cps.get_schools_by_grade G') ∧
      cps.get_schools_by_grade [] = cps.schools := by
  refine ⟨fun s => ?_, ?_, fun G' hGG => ?_, ?_⟩
  · rw [CPS.get_schools_by_grade, gradeLoop_eq_filter, List.mem_filter]
    simp
  · rw [CPS.get_schools_by_grade, gradeLoop_eq_filter]
    exact List.filter_sublist cps.schools
  · rw [CPS.get_schools_by_grade, CPS.get_schools_by_grade,
      gradeLoop_eq_filter, gradeLoop_eq_filter]
    refine List.filter_congr fun s _ => ?_
    simp only [decide_eq_decide]
    constructor
    · intro h g hg
      exact h g ((hGG g).mpr hg)
    · intro h g hg
      exact h g ((hGG g).mp hg)
  · rw [CPS.get_schools_by_grade, gradeLoop_eq_filter]
    simp

/-- Instantiation of `get_schools_by_grade_spec` on a concrete catalog. -/
theorem get_schools_by_grade_spec_witness :
    (∀ s : School, s ∈ testCPS.get_schools_by_grade ["K"] ↔
        s ∈ testCPS.schools ∧ ∀ g ∈ ["K"], g ∈ s.grades) ∧
      (testCPS.get_schools_by_grade ["K"]).Sublist testCPS.schools ∧
      (∀ G' : List String, (∀ g, g ∈ ["K"] ↔ g ∈ G') →
        testCPS.get_schools_by_grade ["K"] = testCPS.get_schools_by_grade G') ∧
      testCPS.get_schools_by_grade [] = testCPS.schools :=
  get_schools_by_grade_spec testCPS ["K"]

/-- C4: `get_schools_by_network` returns exactly the schools whose
network is string-equal to the argument (membership characterisation),
as a sublist of the catalog (original order), and returns `[]` when no
school's network equals the argument. -/
theorem get_schools_by_network_spec (cps : CPS) (n : String) :
    (∀ s : School, s ∈ cps.get_schools_by_network n ↔
        s ∈ cps.schools ∧ s.network = n) ∧
      (cps.get_schools_by_network n).Sublist cps.schools ∧
      ((∀ s ∈ cps.schools, s.network ≠ n) →
        cps.get_schools_by_network n = []) := by
  refine ⟨fun s => ?_, ?_, fun hall => ?_⟩
  · rw [CPS.get_schools_by_network, networkLoop_eq_filter, List.mem_filter]
    simp
  · rw [CPS.get_schools_by_network, networkLoop_eq_filter]
    exact List.filter_sublist cps.schools
  · rw [CPS.get_schools_by_network, networkLoop_eq_filter, List.filter_eq_nil_iff]
    intro s hs
    simpa using hall s hs

/-- Instantiation of `get_schools_by_network_spec` on a concrete catalog. -/
theorem get_schools_by_network_spec_witness :
    (∀ s : School, s ∈ testCPS.get_schools_by_network "N1" ↔
        s ∈ testCPS.schools ∧ s.network = "N1") ∧
      (testCPS.get_schools_by_network "N1").Sublist testCPS.schools ∧
      ((∀ s ∈ testCPS.schools, s.network ≠ "N1") →
        testCPS.get_schools_by_network "N1" = []) :=
  get_schools_by_network_spec testCPS "N1"

/-- C8: converting degrees to radians at construction and back with
`as_degrees` returns the original pair; in exact real arithmetic the
round-trip is exact, hence within the 1e-9 per-component tolerance. -/
theorem fromdegrees_as_degrees_roundtrip (lat lon : ℝ)
    (hlat₁ : -90 ≤ lat) (hlat₂ : lat ≤ 90)
    (hlon₁ : -180 ≤ lon) (hlon₂ : lon ≤ 180) :
    |((Coordinate.fromdegrees lat lon).as_degrees).1 - lat| ≤ 1e-9 ∧
      |((Coordinate.fromdegrees lat lon).as_degrees).2 - lon| ≤ 1e-9 := by
  have hpi := Real.pi_ne_zero
  have h1 : ((Coordinate.fromdegrees lat lon).as_degrees).1 = lat := by
    simp only [Coordinate.fromdegrees, Coordinate.as_degrees,
      Coordinate.degree_to_radian]
    field_simp
  have h2 : ((Coordinate.fromdegrees lat lon).as_degrees).2 = lon := by
    simp only [Coordinate.fromdegrees, Coordinate.as_degrees,
      Coordinate.degree_to_radian]
    field_simp
  rw [h1, h2, sub_self, sub_self, abs_zero]
  norm_num

/-- Instantiation of the round-trip theorem at (41, -87). -/
theorem fromdegrees_as_degrees_roundtrip_witness :
    ((-90 : ℝ) ≤ 41 ∧ (41 : ℝ) ≤ 90 ∧ (-180 : ℝ) ≤ -87 ∧ (-87 : ℝ) ≤ 180) ∧
      (|((Coordinate.fromdegrees 41 (-87)).as_degrees).1 - 41| ≤ 1e-9 ∧
        |((Coordinate.fromdegrees 41 (-87)).as_degrees).2 - (-87)| ≤ 1e-9) :=
  ⟨by norm_num,
    fromdegrees_as_degrees_roundtrip 41 (-87) (by norm_num) (by norm_num)
      (by norm_num) (by norm_num)⟩

/-- The argument handed to `sqrt` inside `Coordinate.distance`, read off
the source expression. -/
noncomputable def haversine_arg (self coord : Coordinate) : ℝ :=
  Real.sin ((self.latitude - coord.latitude) / 2) ^ 2 +
    Real.cos self.latitude * Real.cos coord.latitude *
      Real.sin ((self.longitude - coord.longitude) / 2) ^ 2

/-- Half-angle identity used to bound the haversine argument. -/
theorem sin_half_sq (x : ℝ) : Real.sin (x / 2) ^ 2 = 1 / 2 - Real.cos x / 2 := by
  have h1 := Real.cos_sq (x / 2)
  have h2 := Real.sin_sq_add_cos_sq (x / 2)
  have h3 : 2 * (x / 2) = x := by ring
  rw [h3] at h1
  linarith

/-- The haversine argument is within `[0, 1]` for all real inputs. -/
theorem haversine_arg_mem_unit (a b : Coordinate) :
    0 ≤ haversine_arg a b ∧ haversine_arg a b ≤ 1 := by
  set A := a.latitude with hA
  set B := b.latitude with hB
  set u2 := Real.sin ((A - B) / 2) ^ 2 with hu
  set v2 := Real.sin ((a.longitude - b.longitude) / 2) ^ 2 with hv
  have key : u2 + Real.cos A * Real.cos B = (1 + Real.cos (A + B)) / 2 := by
    have h1 := sin_half_sq (A - B)
    have h2 := Real.cos_sub A B
    have h3 := Real.cos_add A B
    rw [hu, h1]
    linarith
  have hu0 : 0 ≤ u2 := sq_nonneg _
  have hu1 : u2 ≤ 1 := Real.sin_sq_le_one _
  have hv0 : 0 ≤ v2 := sq_nonneg _
  have hv1 : v2 ≤ 1 := Real.sin_sq_le_one _
  have hc1 : -1 ≤ Real.cos (A + B) := Real.neg_one_le_cos _
  have hc2 : Real.cos (A + B) ≤ 1 := Real.cos_le_one _
  have harg : haversine_arg a b = u2 + Real.cos A * Real.cos B * v2 := rfl
  constructor
  · rw [harg]
    nlinarith [mul_nonneg hu0 (by linarith : (0:ℝ) ≤ 1 - v2),
      mul_nonneg (by linarith : (0:ℝ) ≤ (1 + Real.cos (A + B)) / 2) hv0]
  · rw [harg]
    nlinarith [mul_nonneg (by linarith : (0:ℝ) ≤ 1 - u2) (by linarith : (0:ℝ) ≤ 1 - v2),
      mul_nonneg (by linarith : (0:ℝ) ≤ 1 - (1 + Real.cos (A + B)) / 2) hv0]

/-- C10: for all real latitudes and longitudes, the argument of `sqrt`
in `Coordinate.distance` lies in `[0, 1]`, so `sqrt` and `asin` are
applied within their domains, and the returned distance is a
well-defined value in `[0, pi * EARTH_RADIUS]` — never negative. -/
theorem distance_domain_safety (a b : Coordinate) :
    (0 ≤ haversine_arg a b ∧ haversine_arg a b ≤ 1) ∧
      (0 ≤ Real.sqrt (haversine_arg a b) ∧ Real.sqrt (haversine_arg a b) ≤ 1) ∧
      Coordinate.distance a b =
        2 * EARTH_RADIUS * Real.arcsin (Real.sqrt (haversine_arg a b)) ∧
      0 ≤ Coordinate.distance a b ∧
      Coordinate.distance a b ≤ Real.pi * EARTH_RADIUS := by
  obtain ⟨h0, h1⟩ := haversine_arg_mem_unit a b
  have hsq0 : 0 ≤ Real.sqrt (haversine_arg a b) := Real.sqrt_nonneg _
  have hsq1 : Real.sqrt (haversine_arg a b) ≤ 1 := by
    calc Real.sqrt (haversine_arg a b) ≤ Real.sqrt 1 := Real.sqrt_le_sqrt h1
      _ = 1 := Real.sqrt_one
  have hdist : Coordinate.distance a b =
      2 * EARTH_RADIUS * Real.arcsin (Real.sqrt (haversine_arg a b)) := rfl
  have hR : EARTH_RADIUS = (3961 : ℝ) := rfl
  have hasin0 : 0 ≤ Real.arcsin (Real.sqrt (haversine_arg a b)) :=
    Real.arcsin_nonneg.mpr hsq0
  have hasin1 := Real.arcsin_le_pi_div_two (Real.sqrt (haversine_arg a b))
  refine ⟨⟨h0, h1⟩, ⟨hsq0, hsq1⟩, hdist, ?_, ?_⟩
  · rw [hdist, hR]
    positivity
  · rw [hdist, hR]
    nlinarith

/-- Errors that can abort `School.__init__` / `CPS.__init__`: a Python
`ValueError` from `int(...)`/`float(...)` (ParseError), a `KeyError`
from a missing dict key, and `StopIteration` from `next` on an empty
reader. -/
inductive LoadError where
  | parseError (field : String)
  | keyError (key : String)
  | stopIteration
deriving DecidableEq

/-- Models Python dict lookup on `dict(zip(header, content))`: with
duplicate keys the later binding wins, hence the reversed search. -/
def pyDictGet (d : List (String × String)) (k : String) : Option String :=
  d.reverse.lookup k

/-- The natural number denoted by a list of decimal digit characters. -/
def digitsToNat (cs : List Char) : ℕ :=
  cs.foldl (fun n c => 10 * n + (c.toNat - 48)) 0

/-- Holds when `cs` is a nonempty run of decimal digits. -/
def isDigits (cs : List Char) : Bool :=
  !cs.isEmpty && cs.all (·.isDigit)

/-- Models Python `int(s)` on plain decimal integer literals (optional
sign, then digits): `none` models the `ValueError` raised on an
unparseable string. -/
def pyInt (s : String) : Option ℤ :=
  match s.data with
  | '-' :: rest => if isDigits rest then some (-(digitsToNat rest : ℤ)) else none
  | '+' :: rest => if isDigits rest then some ((digitsToNat rest : ℤ)) else none
  | cs => if isDigits cs then some ((digitsToNat cs : ℤ)) else none

/-- Splits a character list at the `.` separators, keeping empty parts,
like `str.split` with an explicit separator. -/
def splitDot : List Char → List (List Char)
  | [] => [[]]
  | c :: rest =>
    if c = '.' then [] :: splitDot rest
    else
      match splitDot rest with
      | [] => [[c]]
      | h :: t => (c :: h) :: t

/-- The rational denoted by a digit list read as a fractional part. -/
def fracVal (cs : List Char) : ℚ :=
  (digitsToNat cs : ℚ) / (10 : ℚ) ^ cs.length

/-- The unsigned body of a Python float literal: digits with at most one
decimal point and at least one digit overall. -/
def pyFloatBody (cs : List Char) : Option ℚ :=
  match splitDot cs with
  | [ip] => if isDigits ip then some ((digitsToNat ip : ℚ)) else none
  | [ip, fp] =>
    if (!ip.isEmpty || !fp.isEmpty) && ip.all (·.isDigit) && fp.all (·.isDigit) then
      some ((digitsToNat ip : ℚ) + fracVal fp)
    else none
  | _ => none

/-- Models Python `float(s)` on plain decimal literals (optional sign,
digits with at most one decimal point, at least one digit): the value is
kept as an exact rational; `none` models the `ValueError` raised on an
unparseable string. -/
def pyFloat (s : String) : Option ℚ :=
  match s.data with
  | '-' :: rest => (pyFloatBody rest).map (fun q => -q)
  | '+' :: rest => pyFloatBody rest
  | cs => pyFloatBody cs

/-- The columns read by `School.__init__`, in access order. -/
def requiredFields : List String :=
  ["School_ID", "Short_Name", "Network", "Address", "Zip", "Phone",
    "Grades", "Lat", "Long"]

/-- Embeds `School.__init__`: reads the row dict in source order; a
missing key raises `KeyError` and an unparseable `School_ID`, `Lat` or
`Long` raises the `ValueError` modelled as `parseError`. -/
noncomputable def School.init (data : List (String × String)) :
    Except LoadError School :=
  match pyDictGet data "School_ID" with
  | none => .error (.keyError "School_ID")
  | some idStr =>
    match pyInt idStr with
    | none => .error (.parseError idStr)
    | some id =>
      match pyDictGet data "Short_Name" with
      | none => .error (.keyError "Short_Name")
      | some name =>
        match pyDictGet data "Network" with
        | none => .error (.keyError "Network")
        | some network =>
          match pyDictGet data "Address" with
          | none => .error (.keyError "Address")
          | some address =>
            match pyDictGet data "Zip" with
            | none => .error (.keyError "Zip")
            | some zipCode =>
              match pyDictGet data "Phone" with
              | none => .error (.keyError "Phone")
              | some phone =>
                match pyDictGet data "Grades" with
                | none => .error (.keyError "Grades")
                | some gradesStr =>
                  match pyDictGet data "Lat" with
                  | none => .error (.keyError "Lat")
                  | some latStr =>
                    match pyFloat latStr with
                    | none => .error (.parseError latStr)
                    | some lat =>
                      match pyDictGet data "Long" with
                      | none => .error (.keyError "Long")
                      | some lonStr =>
                        match pyFloat lonStr with
                        | none => .error (.parseError lonStr)
                        | some lon =>
                          .ok ⟨id, name, network, address, zipCode, phone,
                            gradesStr.splitOn ", ",
                            Coordinate.fromdegrees (lat : ℝ) (lon : ℝ)⟩

/-- Embeds the row loop of `CPS.__init__`: each row is zipped with the
header into a dict and handed to `School.__init__`; the first error
aborts the whole load, otherwise the schools accumulate in row order. -/
noncomputable def loadSchools (header : List String) :
    List (List String) → Except LoadError (List School)
  | [] => .ok []
  | line :: rest =>
    match School.init (List.zip header line) with
    | .error e => .error e
    | .ok s =>
      match loadSchools header rest with
      | .error e => .error e
      | .ok others => .ok (s :: others)

/-- Embeds `CPS.__init__`: the CSV layer is modelled as a map `fs` from
file names to row lists.  The source always opens the literal name
"schools.csv", ignoring the `filename` argument; `next(csv_reader)` on
an empty file raises `StopIteration`. -/
noncomputable def CPS.init (filename : String)
    (fs : String → List (List String)) : Except LoadError CPS :=
  match fs "schools.csv" with
  | [] => .error .stopIteration
  | header :: rows =>
    match loadSchools header rows with
    | .error e => .error e
    | .ok schools => .ok ⟨schools⟩

/-- C5: the catalog constructor ignores its `filename` argument — over
the same external file contents, any two filename arguments produce
identical results, because the source always opens "schools.csv". -/
theorem init_ignores_filename (f1 f2 : String)
    (fs : String → List (List String)) :
    CPS.init f1 fs = CPS.init f2 fs :=
  rfl

/-- With every required column present, `School.__init__` that hits an
unparseable `School_ID`, `Lat` or `Long` raises exactly a parse error. -/
theorem School.init_parseError_of_bad (d : List (String × String))
    (hfields : ∀ k ∈ requiredFields, (pyDictGet d k).isSome)
    (hbad : pyInt ((pyDictGet d "School_ID").getD "") = none ∨
      pyFloat ((pyDictGet d "Lat").getD "") = none ∨
      pyFloat ((pyDictGet d "Long").getD "") = none) :
    ∃ str, School.init d = Except.error (.parseError str) := by
  obtain ⟨v0, h0⟩ :=
    Option.isSome_iff_exists.mp (hfields "School_ID" (by simp [requiredFields]))
  obtain ⟨v1, h1⟩ :=
    Option.isSome_iff_exists.mp (hfields "Short_Name" (by simp [requiredFields]))
  obtain ⟨v2, h2⟩ :=
    Option.isSome_iff_exists.mp (hfields "Network" (by simp [requiredFields]))
  obtain ⟨v3, h3⟩ :=
    Option.isSome_iff_exists.mp (hfields "Address" (by simp [requiredFields]))
  obtain ⟨v4, h4⟩ :=
    Option.isSome_iff_exists.mp (hfields "Zip" (by simp [requiredFields]))
  obtain ⟨v5, h5⟩ :=
    Option.isSome_iff_exists.mp (hfields "Phone" (by simp [requiredFields]))
  obtain ⟨v6, h6⟩ :=
    Option.isSome_iff_exists.mp (hfields "Grades" (by simp [requiredFields]))
  obtain ⟨v7, h7⟩ :=
    Option.isSome_iff_exists.mp (hfields "Lat" (by simp [requiredFields]))
  obtain ⟨v8, h8⟩ :=
    Option.isSome_iff_exists.mp (hfields "Long" (by simp [requiredFields]))
  simp only [h0, h7, h8, Option.getD_some] at hbad
  rcases hid : pyInt v0 with _ | i
  · exact ⟨v0, by simp only [School.init, h0, hid]⟩
  · rcases hlat : pyFloat v7 with _ | qa
    · exact ⟨v7, by
        simp only [School.init, h0, hid, h1, h2, h3, h4, h5, h6, h7, hlat]⟩
    · rcases hlon : pyFloat v8 with _ | qb
      · exact ⟨v8, by
          simp only [School.init, h0, hid, h1, h2, h3, h4, h5, h6, h7, hlat,
            h8, hlon]⟩
      · exfalso
        rcases hbad with hb | hb | hb
        · rw [hid] at hb; cases hb
        · rw [hlat] at hb; cases hb
        · rw [hlon] at hb; cases hb

/-- With every required column present, `School.__init__` either
succeeds or raises a parse error — never a key error. -/
theorem School.init_ok_or_parseError (d : List (String × String))
    (hfields : ∀ k ∈ requiredFields, (pyDictGet d k).isSome) :
    (∃ s, School.init d = Except.ok s) ∨
      ∃ str, School.init d = Except.error (.parseError str) := by
  obtain ⟨v0, h0⟩ :=
    Option.isSome_iff_exists.mp (hfields "School_ID" (by simp [requiredFields]))
  obtain ⟨v1, h1⟩ :=
    Option.isSome_iff_exists.mp (hfields "Short_Name" (by simp [requiredFields]))
  obtain ⟨v2, h2⟩ :=
    Option.isSome_iff_exists.mp (hfields "Network" (by simp [requiredFields]))
  obtain ⟨v3, h3⟩ :=
    Option.isSome_iff_exists.mp (hfields "Address" (by simp [requiredFields]))
  obtain ⟨v4, h4⟩ :=
    Option.isSome_iff_exists.mp (hfields "Zip" (by simp [requiredFields]))
  obtain ⟨v5, h5⟩ :=
    Option.isSome_iff_exists.mp (hfields "Phone" (by simp [requiredFields]))
  obtain ⟨v6, h6⟩ :=
    Option.isSome_iff_exists.mp (hfields "Grades" (by simp [requiredFields]))
  obtain ⟨v7, h7⟩ :=
    Option.isSome_iff_exists.mp (hfields "Lat" (by simp [requiredFields]))
  obtain ⟨v8, h8⟩ :=
    Option.isSome_iff_exists.mp (hfields "Long" (by simp [requiredFields]))
  rcases hid : pyInt v0 with _ | i
  · exact Or.inr ⟨v0, by simp only [School.init, h0, hid]⟩
  · rcases hlat : pyFloat v7 with _ | qa
    · exact Or.inr ⟨v7, by
        simp only [School.init, h0, hid, h1, h2, h3, h4, h5, h6, h7, hlat]⟩
    · rcases hlon : pyFloat v8 with _ | qb
      · exact Or.inr ⟨v8, by
          simp only [School.init, h0, hid, h1, h2, h3, h4, h5, h6, h7, hlat,
            h8, hlon]⟩
      · exact Or.inl ⟨⟨i, v1, v2, v3, v4, v5, v6.splitOn ", ",
          Coordinate.fromdegrees (qa : ℝ) (qb : ℝ)⟩, by
          simp only [School.init, h0, hid, h1, h2, h3, h4, h5, h6, h7, hlat,
            h8, hlon]⟩

/-- The row loop aborts with a parse error whenever some row has all
columns present but an unparseable numeric field. -/
theorem loadSchools_parseError (header : List String)
    (rows : List (List String))
    (hfields : ∀ row ∈ rows, ∀ k ∈ requiredFields,
      (pyDictGet (List.zip header row) k).isSome)
    (hbad : ∃ row ∈ rows,
      pyInt ((pyDictGet (List.zip header row) "School_ID").getD "") = none ∨
      pyFloat ((pyDictGet (List.zip header row) "Lat").getD "") = none ∨
      pyFloat ((pyDictGet (List.zip header row) "Long").getD "") = none) :
    ∃ str, loadSchools header rows = Except.error (.parseError str) := by
  induction rows with
  | nil => simp at hbad
  | cons line rest ih =>
    obtain ⟨row, hrow, hb⟩ := hbad
    rcases List.mem_cons.mp hrow with rfl | hmem
    · obtain ⟨str, hstr⟩ :=
        School.init_parseError_of_bad _ (hfields row (by simp)) hb
      exact ⟨str, by simp only [loadSchools, hstr]⟩
    · rcases School.init_ok_or_parseError (List.zip header line)
          (hfields line (by simp)) with ⟨s, hs⟩ | ⟨str, hstr⟩
      · obtain ⟨str, hstr⟩ :=
          ih (fun r hr k hk => hfields r (List.mem_cons_of_mem _ hr) k hk)
            ⟨row, hmem, hb⟩
        exact ⟨str, by simp only [loadSchools, hs, hstr]⟩
      · exact ⟨str, by simp only [loadSchools, hstr]⟩

/-- C6: if any data row (with all columns present) has an identifier,
latitude or longitude field that does not parse as the required numeric
type, catalog construction fails with a parse error propagated from the
row's `School.__init__`, and no catalog value is produced at all. -/
theorem init_aborts_on_parse_error (f : String)
    (fs : String → List (List String))
    (header : List String) (rows : List (List String))
    (hfile : fs "schools.csv" = header :: rows)
    (hfields : ∀ row ∈ rows, ∀ k ∈ requiredFields,
      (pyDictGet (List.zip header row) k).isSome)
    (hbad : ∃ row ∈ rows,
      pyInt ((pyDictGet (List.zip header row) "School_ID").getD "") = none ∨
      pyFloat ((pyDictGet (List.zip header row) "Lat").getD "") = none ∨
      pyFloat ((pyDictGet (List.zip header row) "Long").getD "") = none) :
    (∃ str, CPS.init f fs = Except.error (.parseError str)) ∧
      ∀ c, CPS.init f fs ≠ Except.ok c := by
  obtain ⟨str, hstr⟩ := loadSchools_parseError header rows hfields hbad
  constructor
  · exact ⟨str, by simp only [CPS.init, hfile, hstr]⟩
  · intro c hc
    simp only [CPS.init, hfile, hstr] at hc
    exact Except.noConfusion hc

/-- A data row whose `School_ID` field is non-numeric. -/
def badRow : List String :=
  ["abc", "A", "N1", "addr", "60601", "555", "K, 1", "41.88", "-87.63"]

/-- A file system holding one header row and one malformed data row
under the fixed name "schools.csv". -/
def badFS : String → List (List String) :=
  fun n => if n = "schools.csv" then [requiredFields, badRow] else []

/-- Instantiation of `init_aborts_on_parse_error` on a concrete file
system with a non-numeric `School_ID`. -/
theorem init_aborts_on_parse_error_witness :
    (∃ str, CPS.init "anything.csv" badFS = Except.error (.parseError str)) ∧
      ∀ c, CPS.init "anything.csv" badFS ≠ Except.ok c :=
  init_aborts_on_parse_error "anything.csv" badFS requiredFields [badRow]
    (by decide) (by decide)
    ⟨badRow, by decide, Or.inl (by decide)⟩
